import Mathlib

/-!
Shallow embedding of the gevo simulation core (src/creature_manager.go,
src/creature.go and the util AddDegrees helper).  Go float32 arithmetic is
modelled exactly over ℚ; every concrete value appearing in the theorems below
is exactly representable in float32 and the float operations performed on it
are exact, so the computed results carry over to the Go code unchanged.

Go maps (map[string]Neuron, map[string]Axon, map[uint64]*Creature) are
modelled as association lists with the semantics of Go: a read of a missing key
yields the zero value for the element type, assignment replaces an existing
entry or adds a new one.  Iteration order of a Go map is unspecified, but
every map-ranging loop in the embedded code either updates each entry
independently of the others or accumulates with commutative-associative
addition, so a fixed list order is observationally equivalent.

External collaborators are passed as explicit parameters: the tile query
ms.getTileEntityAt of the map scene is a function Point → Tile, the engo id
allocator ecs.NewBasic is a fresh-id counter carried in the population state,
and the random source is a stream of draws threaded into spawnCreature.
-/

namespace Gevo

/-- A Neuron holds a single unweighted value (creature_manager.go 50-55). -/
structure Neuron where
  value : ℚ
  deriving DecidableEq, Repr

/-- An Axon holds a value and a weight (creature_manager.go 57-63). -/
structure Axon where
  value : ℚ
  weight : ℚ
  deriving DecidableEq, Repr

/-- BrainComponent: Input map, HiddenLayer slice, Output map
(creature_manager.go 65-73). -/
structure BrainComponent where
  input : List (String × Neuron)
  hiddenLayer : List Axon
  output : List (String × Axon)
  deriving DecidableEq, Repr

/-- A tile entity as consumed by the core: its stored food and whether it is
deadly (fields foodStored, deadly of the tile entity of the map scene). -/
structure Tile where
  foodStored : ℚ
  deadly : Bool
  deriving DecidableEq, Repr

/-- engo.Point. -/
structure Point where
  x : ℚ
  y : ℚ
  deriving DecidableEq, Repr

/-- The creature state the simulation core reads and writes: identity,
SpaceComponent fields (position, rotation, width, height), the brain and
StoredFood (creature_manager.go 39-48). -/
structure Creature where
  id : ℕ
  position : Point
  rotation : ℚ
  width : ℚ
  height : ℚ
  brain : BrainComponent
  storedFood : ℚ
  deriving DecidableEq, Repr

/-! Package-level constants (creature_manager.go 20-33). -/

def networkInputs : List String := ["rotation", "storedfood", "vision", "const"]

def networkOutputs : List String := ["velocitydelta", "angledelta", "eat", "mate"]

/-- Initial value of the global hiddenLayerCount:
len(networkInputs) + len(networkOutputs).  The global is incremented once per
spawn ("For adding a const neuron"), but it is read only by the spawn loop
whose guard `i > hiddenLayerCount` is already false at i = 0 for this and
every larger value, so the increments are unobservable. -/
def hiddenLayerCount : ℕ := networkInputs.length + networkOutputs.length

def creatureSizeMultiplier : ℚ := 4

def baseFoodCost : ℚ := 3/10

def movementFoodCost : ℚ := 2/5

def rotationFoodCost : ℚ := 1/10

def eatFoodCost : ℚ := 1/5

def deadlyTileFoodCost : ℚ := 10

/-- Go read m[k] on a map[string]Neuron: the zero Neuron if k is absent. -/
def neuronGet : List (String × Neuron) → String → Neuron
  | [], _ => ⟨0⟩
  | kv :: rest, k => if kv.1 = k then kv.2 else neuronGet rest k

/-- Go read m[k] on a map[string]Axon: the zero Axon if k is absent. -/
def axonGet : List (String × Axon) → String → Axon
  | [], _ => ⟨0, 0⟩
  | kv :: rest, k => if kv.1 = k then kv.2 else axonGet rest k

/-- Value of the named output of a creature, v.Output[k].Value. -/
def outVal (c : Creature) (k : String) : ℚ := (axonGet c.brain.output k).value

/-- The switch of the populate-Input loop of think (creature_manager.go 94-103):
the new value of the input neuron stored under `key`.  A key matching no case
keeps its old value. -/
def thinkInputVal (c : Creature) (env : Point → Tile) (key : String)
    (old : Neuron) : Neuron :=
  if key = "rotation" then ⟨c.rotation⟩
  else if key = "storedfood" then ⟨c.storedFood⟩
  else if key = "vision" then ⟨(env c.position).foodStored⟩
  else if key = "const" then ⟨1⟩
  else old

/-- Creature.think (creature_manager.go 87-130).  `env` is the function
ms.getTileEntityAt of the map scene.  Phase 1 updates every existing input neuron through the
switch; phase 2 sets the value of each hidden axon to the sum over the input
layer of input value times the weight of that axon; phase 3 sets the value of
each output axon to the sum over the hidden layer of hidden value times the
weight of that output. -/
def think (c : Creature) (env : Point → Tile) : Creature :=
  let input := c.brain.input.map fun kv => (kv.1, thinkInputVal c env kv.1 kv.2)
  let hidden := c.brain.hiddenLayer.map fun a =>
    Axon.mk ((input.map fun kv => kv.2.value * a.weight).sum) a.weight
  let output := c.brain.output.map fun kv =>
    (kv.1, Axon.mk ((hidden.map fun a => a.value * kv.2.weight).sum) kv.2.weight)
  { c with brain := BrainComponent.mk input hidden output }

/-- The six successive rand.Float32() draws consumed by one spawnCreature
call, in evaluation order: the four output weights in networkOutputs order,
then the X and Y position fractions.  Each is in [0,1). -/
structure SpawnDraws where
  wVelocity : ℚ
  wAngle : ℚ
  wEat : ℚ
  wMate : ℚ
  rx : ℚ
  ry : ℚ
  deriving DecidableEq, Repr

/-- World geometry from the map scene: bounds = levelData.Width()*TileWidth by
levelData.Height()*TileHeight, plus the tile unit on each axis. -/
structure WorldCfg where
  boundsX : ℚ
  boundsY : ℚ
  tileWidth : ℚ
  tileHeight : ℚ
  deriving DecidableEq, Repr

/-- Per-axis placement adjustment of spawnCreature (creature_manager.go
250-263): a drawn fraction r below one half is scaled by the full bound and
pushed one tile unit off the near wall, otherwise it is scaled by
bound - tile - diameter. -/
def placeAxis (r bound tile diameter : ℚ) : ℚ :=
  if r < 1/2 then r * bound + tile else r * (bound - tile - diameter)

/-- CreatureManagerSystem.spawnCreature (creature_manager.go 207-298), the
parts that build the creature itself.  newId models the fresh id returned by
ecs.NewBasic().  StoredFood starts at 8; the input map gets exactly the keys
"food" (from StoredFood) and "const"; each of the four named outputs gets a
random weight; the hidden-layer fill loop `for i := 0; i > hiddenLayerCount;
i++` tests 0 > hiddenLayerCount at entry, which fails (the counter starts at
8 and only grows), so it contributes nothing and only the const axon
{Weight: 1, Value: 0} is appended; diameter is StoredFood times the size
multiplier; the position is drawn per axis and adjusted by placeAxis.
Registration with the render and physics systems touches no state modelled
here. -/
def spawnCreature (newId : ℕ) (d : SpawnDraws) (cfg : WorldCfg) : Creature :=
  let storedFood : ℚ := 8
  let input : List (String × Neuron) := [("food", ⟨storedFood⟩), ("const", ⟨1⟩)]
  let output : List (String × Axon) :=
    [("velocitydelta", ⟨0, d.wVelocity⟩), ("angledelta", ⟨0, d.wAngle⟩),
     ("eat", ⟨0, d.wEat⟩), ("mate", ⟨0, d.wMate⟩)]
  let hidden : List Axon := [] ++ [⟨0, 1⟩]
  let diameter := storedFood * creatureSizeMultiplier
  { id := newId
    position := ⟨placeAxis d.rx cfg.boundsX cfg.tileWidth diameter,
                 placeAxis d.ry cfg.boundsY cfg.tileHeight diameter⟩
    rotation := 0
    width := diameter
    height := diameter
    brain := BrainComponent.mk input hidden output
    storedFood := storedFood }

/-- Go map assignment cm.Creatures[c.id] = c: replace the entry with that id
if present, otherwise add one. -/
def insertCreature (cs : List Creature) (c : Creature) : List Creature :=
  if cs.any fun x => x.id == c.id then
    cs.map fun x => if x.id == c.id then c else x
  else cs ++ [c]

/-- Go map read cm.Creatures[i] together with its presence bit. -/
def findCreature (cs : List Creature) (i : ℕ) : Option Creature :=
  cs.find? fun c => c.id == i

/-- The population state owned by CreatureManagerSystem: the Creatures map
and the engo id counter.  ecs.NewBasic() returns ids from a strictly
increasing global counter, so every id already in the map is smaller than the
next id to be handed out; freshOk records that contract. -/
structure PopState where
  creatures : List Creature
  nextId : ℕ
  freshOk : ∀ c ∈ creatures, c.id < nextId

/-- One iteration of the top-up loop body: cm.spawnCreature() builds a
creature under the fresh id and stores it in the map
(creature_manager.go 288). -/
def spawnStep (s : PopState) (cfg : WorldCfg) (draws : ℕ → SpawnDraws) : PopState :=
  { creatures := insertCreature s.creatures (spawnCreature s.nextId (draws s.nextId) cfg)
    nextId := s.nextId + 1
    freshOk := by
      intro c hc
      have hid : (spawnCreature s.nextId (draws s.nextId) cfg).id = s.nextId := rfl
      have hany : (s.creatures.any fun x =>
          x.id == (spawnCreature s.nextId (draws s.nextId) cfg).id) = false := by
        rw [hid, List.any_eq_false]
        intro x hx
        have hlt := s.freshOk x hx
        simp only [beq_iff_eq]
        omega
      rw [insertCreature, hany] at hc
      simp only [Bool.false_eq_true, if_false, List.mem_append,
        List.mem_singleton] at hc
      rcases hc with hx | rfl
      · exact Nat.lt_succ_of_lt (s.freshOk c hx)
      · rw [hid]
        exact Nat.lt_succ_self _ }

/-- The top-up loop of Update (creature_manager.go 139-143): while the map
holds fewer than MinCreatures creatures, spawn one. -/
def topUp (s : PopState) (minC : ℕ) (cfg : WorldCfg) (draws : ℕ → SpawnDraws) :
    PopState :=
  if _h : s.creatures.length < minC then topUp (spawnStep s cfg draws) minC cfg draws
  else s
termination_by minC - s.creatures.length
decreasing_by
  have hid : (spawnCreature s.nextId (draws s.nextId) cfg).id = s.nextId := rfl
  have hany : (s.creatures.any fun x =>
      x.id == (spawnCreature s.nextId (draws s.nextId) cfg).id) = false := by
    rw [hid, List.any_eq_false]
    intro x hx
    have hlt := s.freshOk x hx
    simp only [beq_iff_eq]
    omega
  have hlen : (spawnStep s cfg draws).creatures.length = s.creatures.length + 1 := by
    simp only [spawnStep, insertCreature, hany, Bool.false_eq_true, if_false,
      List.length_append, List.length_singleton]
  omega

/-- The think fan-out of Update (creature_manager.go 145-149): every creature
in the map runs think; each goroutine reads only its own creature and the
immutable scene, and the WaitGroup barrier completes before the apply loop,
so the fan-out is equivalent to this map. -/
def thinkPhase (env : Point → Tile) (cs : List Creature) : List Creature :=
  cs.map fun c => think c env

/-- The cost part of the apply loop body (creature_manager.go 156-158):
StoredFood loses Output["angledelta"].Value * rotationFoodCost, then
Output["movementdelta"].Value * movementFoodCost, then baseFoodCost.
("movementdelta" is read with the Go missing-key semantics; the body updates to
the physics body on lines 153-154 touch only the external physics state.) -/
def applyCosts (c : Creature) : Creature :=
  { c with storedFood :=
      c.storedFood - outVal c "angledelta" * rotationFoodCost
        - outVal c "movementdelta" * movementFoodCost - baseFoodCost }

/-- v.SpaceComponent.Center(): the middle of the axis-aligned box of the entity. -/
def center (c : Creature) : Point :=
  ⟨c.position.x + c.width / 2, c.position.y + c.height / 2⟩

/-- The eat branch of the apply loop (creature_manager.go 159-166): when the
eat output is positive, pay eat cost, gain the stored food of the tile, and lose
deadlyTileFoodCost on a deadly tile. -/
def applyEat (c : Creature) (env : Point → Tile) : Creature :=
  if outVal c "eat" > 0 then
    let f1 := c.storedFood - outVal c "eat" * eatFoodCost
    let tile := env (center c)
    let f2 := f1 + tile.foodStored
    let f3 := if tile.deadly then f2 - deadlyTileFoodCost else f2
    { c with storedFood := f3 }
  else c

/-- Size update at the end of the apply loop body (creature_manager.go
170-172): diameter = StoredFood * creatureSizeMultiplier. -/
def applyResize (c : Creature) : Creature :=
  { c with width := c.storedFood * creatureSizeMultiplier,
           height := c.storedFood * creatureSizeMultiplier }

/-- The apply loop of Update (creature_manager.go 151-173) acting on the
population: each creature pays its costs and possibly eats; if its StoredFood
then falls below 0.3 the creature is removed from the map
(cm.World.RemoveEntity dispatches CreatureManagerSystem.Remove, which deletes
the id, creature_manager.go 133-135 and 167-169); survivors get their
diameter recomputed. -/
def applyPhase (env : Point → Tile) : List Creature → List Creature
  | [] => []
  | c :: rest =>
    let c2 := applyEat (applyCosts c) env
    if c2.storedFood < 3/10 then applyPhase env rest
    else applyResize c2 :: applyPhase env rest

/-- CreatureManagerSystem.Update (creature_manager.go 138-174): top-up to
MinCreatures, concurrent think with barrier, then the sequential apply loop.
Returns the contents of the Creatures map at the end of the tick. -/
def update (s : PopState) (minC : ℕ) (cfg : WorldCfg) (draws : ℕ → SpawnDraws)
    (env : Point → Tile) : List Creature :=
  applyPhase env (thinkPhase env (topUp s minC cfg draws).creatures)

/-- The CollisionMessage listener registered in New (creature_manager.go
182-203).  fromId is m.Entity.ID() and toId is m.To.ID(); mateDraw models the
rand.Float64() draw and newC the creature a mating spawn would insert.  If
either id is untracked the event is ignored; if both mate outputs exceed 5,
a draw below 0.99 does nothing and otherwise a creature is spawned; in the
remaining case, only when the StoredFood of the from-creature strictly
exceeds that of the to-creature is the StoredFood of the to-creature reduced
by itself (to zero). -/
def collisionHandler (cs : List Creature) (fromId toId : ℕ) (mateDraw : ℚ)
    (newC : Creature) : List Creature :=
  match findCreature cs fromId, findCreature cs toId with
  | some cf, some ct =>
    if outVal cf "mate" > 5 ∧ outVal ct "mate" > 5 then
      if mateDraw < 99/100 then cs else insertCreature cs newC
    else
      if cf.storedFood > ct.storedFood then
        cs.map fun c =>
          if c.id == toId then { c with storedFood := c.storedFood - c.storedFood }
          else c
      else cs
  | _, _ => cs

/-- util.AddDegrees (the util snippet, lines 22-32): adds delta to degrees
and folds the result back using ceiling-based integer division.  The Go expression
int(math.Ceil(x)) equals ⌈x⌉ here (x is nonnegative in both branches and in
range), and Go integer division of nonnegative operands agrees with ℤ
division. -/
def addDegrees (degrees delta : ℚ) : ℚ :=
  let d := degrees + delta
  if d > 360 then
    d - ((⌈d⌉ / 360 * 360 : ℤ) : ℚ)
  else if d < 0 then
    d + (((⌈|d|⌉ / 360 + 1) * 360 : ℤ) : ℚ)
  else d

/-! Concrete instances used by the closed theorems below. -/

/-- A world of 8 × 8 tiles of 8 × 8 pixels. -/
def cfgEx : WorldCfg := ⟨64, 64, 8, 8⟩

/-- A large world: 80 × 80 tiles of 8 × 8 pixels. -/
def cfgBig : WorldCfg := ⟨640, 640, 8, 8⟩

def drawsEx : SpawnDraws := ⟨1/2, 1/3, 1/4, 1/5, 0, 0⟩

/-- Draws for the placement witness: rx = 1/4 (near-wall branch),
ry = 3/4 (far-wall branch). -/
def drawsW : SpawnDraws := ⟨0, 0, 0, 0, 1/4, 3/4⟩

def drawsStream : ℕ → SpawnDraws := fun _ => drawsEx

/-- An environment whose every tile holds 7 food and is not deadly. -/
def envEx : Point → Tile := fun _ => ⟨7, false⟩

/-- A spawned creature moved and drained by the outside world: rotation 90,
StoredFood 5.  Its input map still holds only "food" (stuck at 8) and
"const". -/
def c1ex : Creature := { spawnCreature 0 drawsEx cfgBig with rotation := 90, storedFood := 5 }

/-- A freshly spawned creature after one think in envEx. -/
def c7ex : Creature := think (spawnCreature 0 drawsEx cfgBig) envEx

/-- A creature with no outputs at all (every output reads as the zero Axon). -/
def c8ex : Creature :=
  { id := 3, position := ⟨16, 16⟩, rotation := 0, width := 32, height := 32,
    brain := BrainComponent.mk [] [] [], storedFood := 8 }

/-- Weaker creature of the C9 contact event (id 1, StoredFood 1). -/
def c9A : Creature :=
  { id := 1, position := ⟨16, 16⟩, rotation := 0, width := 4, height := 4,
    brain := BrainComponent.mk [] [] [("mate", ⟨0, 0⟩)], storedFood := 1 }

/-- Stronger creature of the C9 contact event (id 2, StoredFood 2). -/
def c9B : Creature :=
  { id := 2, position := ⟨16, 16⟩, rotation := 0, width := 8, height := 8,
    brain := BrainComponent.mk [] [] [("mate", ⟨0, 0⟩)], storedFood := 2 }

/-- The result of the only surviving creature of the C5 witness tick. -/
def c5res : Creature :=
  { id := 3, position := ⟨16, 16⟩, rotation := 0, width := 154/5, height := 154/5,
    brain := BrainComponent.mk [] [] [], storedFood := 77/10 }

/-- Witness population: the single creature c8ex, next fresh id 4. -/
def s5 : PopState :=
  { creatures := [c8ex]
    nextId := 4
    freshOk := by
      intro c hc
      rw [List.mem_singleton] at hc
      subst hc
      exact Nat.lt_succ_self 3 }

end Gevo

namespace Gevo

/-! Helper lemmas shared by the claim theorems. -/

/-- Reading a key that is not among the output names gives the zero Axon. -/
theorem axonGet_not_mem (l : List (String × Axon)) (k : String)
    (h : k ∉ l.map Prod.fst) : axonGet l k = ⟨0, 0⟩ := by
  induction l with
  | nil => rfl
  | cons kv rest ih =>
    simp only [List.map_cons, List.mem_cons] at h
    push_neg at h
    rw [axonGet, if_neg fun he => h.1 he.symm]
    exact ih h.2

/-- One spawn grows the Creatures map by exactly one entry: the id handed out
by the counter is fresh, so the Go map assignment adds rather than
replaces. -/
theorem spawnStep_creatures_length (s : PopState) (cfg : WorldCfg)
    (draws : ℕ → SpawnDraws) :
    (spawnStep s cfg draws).creatures.length = s.creatures.length + 1 := by
  have hid : (spawnCreature s.nextId (draws s.nextId) cfg).id = s.nextId := rfl
  have hany : (s.creatures.any fun x =>
      x.id == (spawnCreature s.nextId (draws s.nextId) cfg).id) = false := by
    rw [hid, List.any_eq_false]
    intro x hx
    have hlt := s.freshOk x hx
    simp only [beq_iff_eq]
    omega
  simp only [spawnStep, insertCreature, hany, Bool.false_eq_true, if_false,
    List.length_append, List.length_singleton]

/-- The top-up loop computes a population of size max(initial, MinCreatures):
it terminates after at most MinCreatures spawns because every iteration grows
the map by one. -/
theorem topUp_length_aux (minC : ℕ) (cfg : WorldCfg) (draws : ℕ → SpawnDraws) :
    ∀ (n : ℕ) (s : PopState), minC - s.creatures.length ≤ n →
      (topUp s minC cfg draws).creatures.length = max s.creatures.length minC := by
  intro n
  induction n with
  | zero =>
    intro s hs
    unfold topUp
    rw [dif_neg (by omega : ¬ s.creatures.length < minC)]
    omega
  | succ n ih =>
    intro s hs
    unfold topUp
    by_cases hlt : s.creatures.length < minC
    · rw [dif_pos hlt]
      have hlen := spawnStep_creatures_length s cfg draws
      have hres := ih (spawnStep s cfg draws) (by omega)
      rw [hres, hlen]
      omega
    · rw [dif_neg hlt]
      omega

/-- Every creature still in the map after the apply loop has
StoredFood ≥ 0.3. -/
theorem applyPhase_storedFood_ge (env : Point → Tile) :
    ∀ (cs : List Creature), ∀ c ∈ applyPhase env cs, (3/10 : ℚ) ≤ c.storedFood := by
  intro cs
  induction cs with
  | nil =>
    intro c hc
    simp [applyPhase] at hc
  | cons a rest ih =>
    intro c hc
    simp only [applyPhase] at hc
    by_cases hdead : (applyEat (applyCosts a) env).storedFood < 3/10
    · rw [if_pos hdead] at hc
      exact ih c hc
    · rw [if_neg hdead] at hc
      rcases List.mem_cons.mp hc with rfl | hmem
      · exact le_of_not_lt hdead
      · exact ih c hmem

/-! The claim theorems. -/

/-- Claim C1.  The spec says think populates the named input neurons
rotation, storedfood, vision and const from the sensed state.  The code can
not: spawnCreature creates only the input keys "food" and "const", so after
think the input layer still holds exactly those two keys; the keys rotation,
storedfood and vision do not exist and are never populated, and "food" keeps
its spawn-time value 8 even though the creature here has rotation 90 and
StoredFood 5 on a tile holding 7 food.  This contradicts the declared
networkInputs of the code and the switch cases of think itself. -/
theorem think_missing_named_inputs :
    (think c1ex envEx).brain.input = [("food", ⟨8⟩), ("const", ⟨1⟩)] ∧
    "rotation" ∉ (think c1ex envEx).brain.input.map Prod.fst ∧
    "storedfood" ∉ (think c1ex envEx).brain.input.map Prod.fst ∧
    "vision" ∉ (think c1ex envEx).brain.input.map Prod.fst := by
  refine ⟨?_, ?_, ?_, ?_⟩ <;>
    simp [think, thinkInputVal, c1ex, spawnCreature, envEx, cfgBig, drawsEx]

/-- Claim C2.  The spec says the hidden layer of a spawned creature has
|inputs| + |outputs| + 1 = 9 neurons.  In the code the fill loop
`for i := 0; i > hiddenLayerCount; i++` never runs (its guard is false at
entry), so the hidden layer of every spawned creature is exactly the single
const axon of weight 1: length 1, not 9. -/
theorem spawn_hiddenLayer_single_axon (i : ℕ) (d : SpawnDraws) (cfg : WorldCfg) :
    (spawnCreature i d cfg).brain.hiddenLayer = [⟨0, 1⟩] ∧
    (spawnCreature i d cfg).brain.hiddenLayer.length = 1 ∧
    (spawnCreature i d cfg).brain.hiddenLayer.length ≠
      networkInputs.length + networkOutputs.length + 1 := by
  refine ⟨rfl, rfl, ?_⟩
  simp [spawnCreature, networkInputs, networkOutputs]

/-- Claim C3.  For any creature whose brain has the exact shape produced by
spawnCreature (inputs "food" = 8 and "const" = 1, one hidden axon of weight
1, the four named outputs), one think step sets every output value to
9 * weight, puts the input layer back in the same state and sets the hidden
axon to value 9 — independently of the environment, the rotation, the
position and the stored food of the creature.  Since the resulting brain has
the same shape again, the outputs are 9 * weight on every later tick as
well. -/
theorem think_outputs_constant_nine_times_weight
    (env : Point → Tile) (c : Creature) (hv av aa ae am wv wa we wm : ℚ)
    (h1 : c.brain.input = [("food", ⟨8⟩), ("const", ⟨1⟩)])
    (h2 : c.brain.hiddenLayer = [⟨hv, 1⟩])
    (h3 : c.brain.output = [("velocitydelta", ⟨av, wv⟩), ("angledelta", ⟨aa, wa⟩),
      ("eat", ⟨ae, we⟩), ("mate", ⟨am, wm⟩)]) :
    (think c env).brain.output = [("velocitydelta", ⟨9 * wv, wv⟩),
      ("angledelta", ⟨9 * wa, wa⟩), ("eat", ⟨9 * we, we⟩), ("mate", ⟨9 * wm, wm⟩)] ∧
    (think c env).brain.input = [("food", ⟨8⟩), ("const", ⟨1⟩)] ∧
    (think c env).brain.hiddenLayer = [⟨9, 1⟩] := by
  refine ⟨?_, ?_, ?_⟩ <;>
    simp [think, thinkInputVal, h1, h2, h3] <;>
    norm_num

/-- Witness for C3 at a concrete spawned creature. -/
theorem think_outputs_constant_nine_times_weight_witness :
    (think (spawnCreature 0 drawsEx cfgBig) envEx).brain.output =
      [("velocitydelta", ⟨9 * (1/2), 1/2⟩), ("angledelta", ⟨9 * (1/3), 1/3⟩),
       ("eat", ⟨9 * (1/4), 1/4⟩), ("mate", ⟨9 * (1/5), 1/5⟩)] ∧
    (think (spawnCreature 0 drawsEx cfgBig) envEx).brain.input
      = [("food", ⟨8⟩), ("const", ⟨1⟩)] ∧
    (think (spawnCreature 0 drawsEx cfgBig) envEx).brain.hiddenLayer = [⟨9, 1⟩] :=
  think_outputs_constant_nine_times_weight envEx (spawnCreature 0 drawsEx cfgBig)
    0 0 0 0 0 (1/2) (1/3) (1/4) (1/5) rfl rfl rfl

/-- Claim C4.  The spec says the normalized angle is always in [0,360).  The
specific values hold (370 normalizes to 10 and -10 to 350), but the range
claim is false: AddDegrees(0,360) returns 360, AddDegrees(0,719.5) returns
-0.5 (the ceiling-based factor over-subtracts one revolution), and
AddDegrees(0,-359.5) returns 360.5 (the factor-plus-one over-adds one).  All
inputs and results here are exact in float32. -/
theorem addDegrees_out_of_range_values :
    addDegrees 0 370 = 10 ∧ addDegrees 0 (-10) = 350 ∧
    addDegrees 0 360 = 360 ∧
    addDegrees 0 (1439/2) = -(1/2) ∧ addDegrees 0 (-(719/2)) = 721/2 ∧
    ¬(0 ≤ addDegrees 0 (1439/2) ∧ addDegrees 0 (1439/2) < 360) ∧
    ¬(addDegrees 0 360 < 360) ∧ ¬(addDegrees 0 (-(719/2)) < 360) := by
  have e1 : addDegrees 0 370 = 10 := by norm_num [addDegrees]
  have e2 : addDegrees 0 (-10) = 350 := by norm_num [addDegrees]
  have e3 : addDegrees 0 360 = 360 := by norm_num [addDegrees]
  have e4 : addDegrees 0 (1439/2) = -(1/2) := by
    have hc : ⌈(1439/2 : ℚ)⌉ = 720 := by
      rw [Int.ceil_eq_iff]
      norm_num
    norm_num [addDegrees, hc]
  have e5 : addDegrees 0 (-(719/2)) = 721/2 := by
    have ha : |(719/2 : ℚ)| = 719/2 := abs_of_nonneg (by norm_num)
    have hc : ⌈(719/2 : ℚ)⌉ = 360 := by
      rw [Int.ceil_eq_iff]
      norm_num
    norm_num [addDegrees, ha, hc]
  refine ⟨e1, e2, e3, e4, e5, ?_, ?_, ?_⟩
  · rw [e4]
    norm_num
  · rw [e3]
    exact lt_irrefl (360 : ℚ)
  · rw [e5]
    norm_num

/-- Claim C5.  No creature whose StoredFood after the energy accounting of
the tick is below 0.3 survives the apply phase: the population map returned
by Update contains only creatures with StoredFood ≥ 0.3. -/
theorem no_starving_creature_survives_apply
    (s : PopState) (minC : ℕ) (cfg : WorldCfg) (draws : ℕ → SpawnDraws)
    (env : Point → Tile) (c : Creature)
    (hc : c ∈ update s minC cfg draws env) : ¬ c.storedFood < 3/10 := by
  simp only [update] at hc
  exact not_lt.mpr (applyPhase_storedFood_ge env _ c hc)

/-- Witness for C5: one tick over the single-creature population s5. -/
theorem no_starving_creature_survives_apply_witness :
    ¬ c5res.storedFood < 3/10 := by
  have htop : topUp s5 1 cfgEx drawsStream = s5 := by
    unfold topUp
    rw [dif_neg]
    simp [s5]
  have hup : update s5 1 cfgEx drawsStream envEx = [c5res] := by
    unfold update thinkPhase
    rw [htop]
    show applyPhase envEx [think c8ex envEx] = [c5res]
    have hthink : think c8ex envEx = c8ex := rfl
    rw [hthink]
    have hcosts : applyCosts c8ex = { c8ex with storedFood := 77/10 } := by
      simp [applyCosts, outVal, axonGet, c8ex, baseFoodCost, rotationFoodCost,
        movementFoodCost]
      norm_num
    have heat : applyEat (applyCosts c8ex) envEx = { c8ex with storedFood := 77/10 } := by
      rw [applyEat, if_neg]
      · exact hcosts
      · rw [hcosts]
        norm_num [outVal, axonGet, c8ex]
    rw [applyPhase, applyPhase, heat, if_neg (by norm_num)]
    simp [applyResize, c8ex, c5res, creatureSizeMultiplier]
    norm_num
  exact no_starving_creature_survives_apply s5 1 cfgEx drawsStream envEx c5res
    (by rw [hup]; exact List.mem_singleton.mpr rfl)

/-- Claim C6.  After the top-up loop the population always holds at least
MinCreatures creatures; each spawn inserts exactly one creature under the
fresh id from the counter, so the loop terminates with
max(initial size, MinCreatures) creatures in the map. -/
theorem topUp_reaches_min_population (s : PopState) (minC : ℕ) (cfg : WorldCfg)
    (draws : ℕ → SpawnDraws) :
    minC ≤ (topUp s minC cfg draws).creatures.length ∧
    (topUp s minC cfg draws).creatures.length = max s.creatures.length minC := by
  have h := topUp_length_aux minC cfg draws (minC - s.creatures.length) s le_rfl
  exact ⟨by rw [h]; omega, h⟩

/-- Claim C7, the claimed formula refuted.  The spec says the apply phase
charges |rotationdelta| * rotationFoodCost + |positiondelta| *
movementFoodCost + baseFoodCost.  For the freshly spawned, once-thought
creature c7ex (angledelta output 3, velocitydelta output 9/2) the code leaves
StoredFood at 8 - 3 * 0.1 - 0.3 = 7.4, not the 8 - (0.3 + 1.8 + 0.3) = 5.6
the formula demands: the movement charge reads the key "movementdelta",
which no creature has among its outputs, so it is always zero. -/
theorem applyCosts_claimed_formula_false :
    (applyCosts c7ex).storedFood = 37/5 ∧
    (applyCosts c7ex).storedFood ≠
      c7ex.storedFood - (|outVal c7ex "angledelta"| * rotationFoodCost
        + |outVal c7ex "velocitydelta"| * movementFoodCost + baseFoodCost) := by
  have hout : c7ex.brain.output = [("velocitydelta", ⟨9/2, 1/2⟩),
      ("angledelta", ⟨3, 1/3⟩), ("eat", ⟨9/4, 1/4⟩), ("mate", ⟨9/5, 1/5⟩)] := by
    simp [c7ex, think, thinkInputVal, spawnCreature, drawsEx, cfgBig, envEx]
    norm_num
  have hfood : c7ex.storedFood = 8 := rfl
  have ha : outVal c7ex "angledelta" = 3 := by
    rw [outVal, hout]
    simp [axonGet]
  have hm : outVal c7ex "movementdelta" = 0 := by
    rw [outVal, hout]
    simp [axonGet]
  have hv : outVal c7ex "velocitydelta" = 9/2 := by
    rw [outVal, hout]
    simp [axonGet]
  constructor
  · simp only [applyCosts, ha, hm, hfood]
    norm_num [rotationFoodCost, movementFoodCost, baseFoodCost]
  · have habs : |(9/2 : ℚ)| = 9/2 := abs_of_nonneg (by norm_num)
    simp only [applyCosts, ha, hm, hv, hfood]
    norm_num [rotationFoodCost, movementFoodCost, baseFoodCost, habs]

/-- Claim C7 as amended: before the eat branch, the apply phase decreases
StoredFood by exactly angledelta * rotationFoodCost + baseFoodCost for every
creature without a "movementdelta" output (that key is never created — the
outputs are velocitydelta, angledelta, eat and mate — so the movement term of
the spec contributes nothing, and the rotation delta is charged at its signed
value, not its magnitude). -/
theorem applyCosts_energy_decrement (c : Creature)
    (hmd : "movementdelta" ∉ c.brain.output.map Prod.fst) :
    (applyCosts c).storedFood
      = c.storedFood - (outVal c "angledelta" * rotationFoodCost + baseFoodCost) := by
  have hz : outVal c "movementdelta" = 0 := by
    rw [outVal, axonGet_not_mem _ _ hmd]
  simp only [applyCosts, hz]
  ring

/-- Witness for the amended C7 at the concrete creature c7ex. -/
theorem applyCosts_energy_decrement_witness :
    (applyCosts c7ex).storedFood
      = c7ex.storedFood - (outVal c7ex "angledelta" * rotationFoodCost + baseFoodCost) :=
  applyCosts_energy_decrement c7ex
    (by simp [c7ex, think, thinkInputVal, spawnCreature, drawsEx, cfgBig, envEx])

/-- Claim C8.  A creature with StoredFood 8 whose outputs are all zero loses
exactly baseFoodCost in the apply phase: no rotation cost, no movement cost,
no eat branch and no tile gain, in any environment. -/
theorem zero_outputs_cost_exactly_base (c : Creature) (env : Point → Tile)
    (hfood : c.storedFood = 8) (hout : ∀ k : String, outVal c k = 0) :
    (applyEat (applyCosts c) env).storedFood = 8 - baseFoodCost ∧
    (8 : ℚ) - baseFoodCost = 77/10 := by
  have houtc : ∀ k : String, outVal (applyCosts c) k = 0 := fun k => hout k
  have hcond : ¬ outVal (applyCosts c) "eat" > 0 := by
    rw [houtc]
    norm_num
  constructor
  · rw [applyEat, if_neg hcond]
    simp only [applyCosts, hout, hfood]
    ring
  · norm_num [baseFoodCost]

/-- Witness for C8 at the concrete creature c8ex. -/
theorem zero_outputs_cost_exactly_base_witness :
    (applyEat (applyCosts c8ex) envEx).storedFood = 8 - baseFoodCost ∧
    (8 : ℚ) - baseFoodCost = 77/10 :=
  zero_outputs_cost_exactly_base c8ex envEx rfl (fun _ => rfl)


/-- Claim C9, the bidirectional reading refuted.  In the contact event
(from = creature 1 with StoredFood 1, to = creature 2 with StoredFood 2,
no mating intent), the spec says the stronger creature 2 drains creature 1
to zero.  The handler compares only from against to, so nothing happens:
the population is unchanged and creature 1 keeps StoredFood 1. -/
theorem predation_not_bidirectional :
    collisionHandler [c9A, c9B] 1 2 0 (spawnCreature 5 drawsEx cfgEx) = [c9A, c9B] ∧
    findCreature (collisionHandler [c9A, c9B] 1 2 0 (spawnCreature 5 drawsEx cfgEx)) 1
      = some c9A ∧
    c9A.storedFood = 1 ∧ (1 : ℚ) ≠ 0 := by
  have hfrom : findCreature [c9A, c9B] 1 = some c9A := by
    simp [findCreature, List.find?, c9A, c9B]
  have hto : findCreature [c9A, c9B] 2 = some c9B := by
    simp [findCreature, List.find?, c9A, c9B]
  have hmate : ¬(outVal c9A "mate" > 5 ∧ outVal c9B "mate" > 5) := by
    norm_num [outVal, axonGet, c9A, c9B]
  have hcmp : ¬ c9A.storedFood > c9B.storedFood := by
    norm_num [c9A, c9B]
  have h : collisionHandler [c9A, c9B] 1 2 0 (spawnCreature 5 drawsEx cfgEx)
      = [c9A, c9B] := by
    unfold collisionHandler
    rw [hfrom, hto]
    simp only []
    rw [if_neg hmate, if_neg hcmp]
  exact ⟨h, by rw [h]; exact hfrom, rfl, by norm_num⟩

/-- Claim C9 as amended: for a contact event between two tracked creatures
without mutual mating intent, the handler acts in one direction only: when
the from-creature (m.Entity) has strictly greater StoredFood than the
to-creature (m.To), the StoredFood of the to-creature is drained to zero and
everything else is unchanged; in every other case — including the case where
the to-creature is strictly stronger — nothing at all is drained. -/
theorem predation_dominance_first_entity_only
    (cs : List Creature) (fromId toId : ℕ) (mateDraw : ℚ) (newC cf ct : Creature)
    (hf : findCreature cs fromId = some cf) (ht : findCreature cs toId = some ct)
    (hmate : ¬(outVal cf "mate" > 5 ∧ outVal ct "mate" > 5)) :
    (cf.storedFood > ct.storedFood →
      collisionHandler cs fromId toId mateDraw newC
        = cs.map fun c => if c.id == toId then { c with storedFood := 0 } else c) ∧
    (¬ cf.storedFood > ct.storedFood →
      collisionHandler cs fromId toId mateDraw newC = cs) := by
  constructor <;> intro hcmp
  · unfold collisionHandler
    rw [hf, ht]
    simp only []
    rw [if_neg hmate, if_pos hcmp]
    refine List.map_congr_left fun a _ => ?_
    by_cases hid : a.id == toId
    · rw [if_pos hid, if_pos hid, sub_self]
    · rw [if_neg hid, if_neg hid]
  · unfold collisionHandler
    rw [hf, ht]
    simp only []
    rw [if_neg hmate, if_neg hcmp]

/-- Witness for the amended C9: the same pair with the event ordered so that
the from-creature is the stronger one. -/
theorem predation_dominance_first_entity_only_witness :
    (c9B.storedFood > c9A.storedFood →
      collisionHandler [c9A, c9B] 2 1 0 (spawnCreature 5 drawsEx cfgEx)
        = [c9A, c9B].map fun c => if c.id == 1 then { c with storedFood := 0 } else c) ∧
    (¬ c9B.storedFood > c9A.storedFood →
      collisionHandler [c9A, c9B] 2 1 0 (spawnCreature 5 drawsEx cfgEx) = [c9A, c9B]) :=
  predation_dominance_first_entity_only [c9A, c9B] 2 1 0 (spawnCreature 5 drawsEx cfgEx)
    c9B c9A
    (by simp [findCreature, List.find?, c9A, c9B])
    (by simp [findCreature, List.find?, c9A, c9B])
    (by norm_num [outVal, axonGet, c9A, c9B])

/-- Claim C10, the universal bound refuted.  In an 8 x 8 tile world of 8 x 8
pixel tiles (bound 64, tile 8, spawn diameter 8 * 4 = 32), the draw
rx = 0.49 takes the near-wall branch and lands at 0.49 * 64 + 8 = 39.36,
which is beyond the far-wall clearance 64 - 8 - 32 = 24. -/
theorem spawn_placement_bound_violation :
    (spawnCreature 0 ⟨0, 0, 0, 0, 49/100, 49/100⟩ cfgEx).position.x = 984/25 ∧
    ¬((spawnCreature 0 ⟨0, 0, 0, 0, 49/100, 49/100⟩ cfgEx).position.x
        ≤ cfgEx.boundsX - cfgEx.tileWidth - 8 * creatureSizeMultiplier) := by
  have hx : (spawnCreature 0 ⟨0, 0, 0, 0, 49/100, 49/100⟩ cfgEx).position.x
      = placeAxis (49/100) cfgEx.boundsX cfgEx.tileWidth (8 * creatureSizeMultiplier) := rfl
  have hval : placeAxis (49/100) cfgEx.boundsX cfgEx.tileWidth (8 * creatureSizeMultiplier)
      = 984/25 := by
    rw [placeAxis, if_pos (by norm_num)]
    norm_num [cfgEx, creatureSizeMultiplier]
  constructor
  · rw [hx, hval]
  · rw [hx, hval]
    norm_num [cfgEx, creatureSizeMultiplier]

/-- Per-axis placement bound: with a draw in [0,1), nonnegative tile unit and
diameter, and a bound of at least 4 tile units plus 2 diameters, the placed
coordinate is between tile and bound - tile - diameter. -/
theorem placeAxis_bounds (r bound tile diam : ℚ) (hr0 : 0 ≤ r) (hr1 : r < 1)
    (ht : 0 ≤ tile) (hd : 0 ≤ diam) (hb : 4 * tile + 2 * diam ≤ bound) :
    tile ≤ placeAxis r bound tile diam ∧
    placeAxis r bound tile diam ≤ bound - tile - diam := by
  have hbnn : (0 : ℚ) ≤ bound := by linarith
  rw [placeAxis]
  by_cases hhalf : r < 1/2
  · rw [if_pos hhalf]
    constructor
    · nlinarith [mul_nonneg hr0 hbnn]
    · nlinarith [mul_nonneg (by linarith : (0:ℚ) ≤ 1/2 - r) hbnn]
  · rw [if_neg hhalf]
    have hX : (0 : ℚ) ≤ bound - tile - diam := by linarith
    constructor
    · nlinarith [mul_nonneg (by linarith : (0:ℚ) ≤ r - 1/2) hX]
    · nlinarith [mul_nonneg (by linarith : (0:ℚ) ≤ 1 - r) hX]

/-- Claim C10 as amended: the per-axis placement formula is as claimed
(r scaled by the full bound plus one tile unit when r < 0.5, r scaled by
bound - tile - diameter otherwise), and the placed position satisfies
tileSize ≤ position ≤ bound - tileSize - diameter on both axes whenever the
world bound on each axis is at least 4 tile units plus 2 spawn diameters
(the spawn diameter being 8 * creatureSizeMultiplier = 32); for smaller
worlds the near-wall branch can overshoot the far-wall clearance. -/
theorem spawn_placement_bounds_large_world (i : ℕ) (d : SpawnDraws) (cfg : WorldCfg)
    (hx0 : 0 ≤ d.rx) (hx1 : d.rx < 1) (hy0 : 0 ≤ d.ry) (hy1 : d.ry < 1)
    (htw : 0 ≤ cfg.tileWidth) (hth : 0 ≤ cfg.tileHeight)
    (hbx : 4 * cfg.tileWidth + 2 * (8 * creatureSizeMultiplier) ≤ cfg.boundsX)
    (hby : 4 * cfg.tileHeight + 2 * (8 * creatureSizeMultiplier) ≤ cfg.boundsY) :
    ((spawnCreature i d cfg).position.x
        = placeAxis d.rx cfg.boundsX cfg.tileWidth (8 * creatureSizeMultiplier) ∧
      (spawnCreature i d cfg).position.y
        = placeAxis d.ry cfg.boundsY cfg.tileHeight (8 * creatureSizeMultiplier)) ∧
    (cfg.tileWidth ≤ (spawnCreature i d cfg).position.x ∧
      (spawnCreature i d cfg).position.x
        ≤ cfg.boundsX - cfg.tileWidth - 8 * creatureSizeMultiplier) ∧
    (cfg.tileHeight ≤ (spawnCreature i d cfg).position.y ∧
      (spawnCreature i d cfg).position.y
        ≤ cfg.boundsY - cfg.tileHeight - 8 * creatureSizeMultiplier) := by
  have hd : (0 : ℚ) ≤ 8 * creatureSizeMultiplier := by
    norm_num [creatureSizeMultiplier]
  have hx : (spawnCreature i d cfg).position.x
      = placeAxis d.rx cfg.boundsX cfg.tileWidth (8 * creatureSizeMultiplier) := rfl
  have hy : (spawnCreature i d cfg).position.y
      = placeAxis d.ry cfg.boundsY cfg.tileHeight (8 * creatureSizeMultiplier) := rfl
  rw [hx, hy]
  exact ⟨⟨rfl, rfl⟩, placeAxis_bounds _ _ _ _ hx0 hx1 htw hd hbx,
    placeAxis_bounds _ _ _ _ hy0 hy1 hth hd hby⟩

/-- Witness for the amended C10 in an 80 x 80 tile world. -/
theorem spawn_placement_bounds_large_world_witness :
    (((spawnCreature 0 drawsW cfgBig).position.x
        = placeAxis drawsW.rx cfgBig.boundsX cfgBig.tileWidth (8 * creatureSizeMultiplier) ∧
      (spawnCreature 0 drawsW cfgBig).position.y
        = placeAxis drawsW.ry cfgBig.boundsY cfgBig.tileHeight (8 * creatureSizeMultiplier)) ∧
    (cfgBig.tileWidth ≤ (spawnCreature 0 drawsW cfgBig).position.x ∧
      (spawnCreature 0 drawsW cfgBig).position.x
        ≤ cfgBig.boundsX - cfgBig.tileWidth - 8 * creatureSizeMultiplier) ∧
    (cfgBig.tileHeight ≤ (spawnCreature 0 drawsW cfgBig).position.y ∧
      (spawnCreature 0 drawsW cfgBig).position.y
        ≤ cfgBig.boundsY - cfgBig.tileHeight - 8 * creatureSizeMultiplier)) :=
  spawn_placement_bounds_large_world 0 drawsW cfgBig
    (by norm_num [drawsW]) (by norm_num [drawsW])
    (by norm_num [drawsW]) (by norm_num [drawsW])
    (by norm_num [cfgBig]) (by norm_num [cfgBig])
    (by norm_num [cfgBig, creatureSizeMultiplier])
    (by norm_num [cfgBig, creatureSizeMultiplier])

end Gevo
